import Mathlib

/-!
Verification of the Receipt Review State & Reconciliation Engine of the
tabulate repository.

The development shallowly embeds the engine's data model and operations:

* `reviewReducer`, `initialState`, `isDirty` from `src/pages/reviewReducer.ts`;
* the derived `subtotal`, effective total, balance verification
  (`verify`), exposed `difference`, and the save-payload builder
  (`buildSaveBody` / `handleSave`) from `src/pages/ReviewReceipt.tsx`;
* the temporary-id allocator `nextTempId` from
  `src/components/LineItemsTable.tsx`, modelled by explicit state passing
  over the module-level counter.

JavaScript numbers are modelled as exact rationals (ℚ); JavaScript
`Record` objects keyed by item id are modelled as association lists with
the insert-or-update semantics of an object spread; the JavaScript `Set`
is modelled as a `Finset ℤ`.
-/

namespace Tabulate

/-- Category provenance tag of a line item (TS union type of
`category_source` in `src/types.ts`). -/
inductive CategorySource where
  | learned
  | manual
  | ai
deriving DecidableEq

/-- Line item of a receipt, from `LineItem` in `src/types.ts`. -/
structure LineItem where
  id : Int
  raw_name : String
  clean_name : String
  category : String
  category_source : CategorySource
  price : ℚ
  quantity : ℚ
  receipt_id : Int
deriving DecidableEq

/-- Receipt status union from `src/types.ts`. -/
inductive ReceiptStatus where
  | pending
  | review
  | verified
deriving DecidableEq

/-- Baseline receipt, from `Receipt` in `src/types.ts`. -/
structure Receipt where
  id : Int
  store_name : Option String
  receipt_date : Option String
  scanned_at : String
  status : ReceiptStatus
  total : Option ℚ
  tax : Option ℚ
  total_verified : Bool
  verification_message : Option String
  ocr_raw : Option String
  image_path : Option String
  thumbnail_path : Option String
  items : List LineItem
deriving DecidableEq

/-- Locally created, not-yet-persisted item, from `LocalItem` in
`src/components/LineItemsTable.tsx`. The TS field `_tempId` is named
`tempId` here. -/
structure LocalItem where
  tempId : Int
  name : String
  price : ℚ
  category : String
deriving DecidableEq

/-- Lookup of a key in an association list modelling a TS
`Record<number, T>`. -/
def recordGet {α : Type} : List (Int × α) → Int → Option α
  | [], _ => none
  | (k, v) :: rest, key => if k = key then some v else recordGet rest key

/-- Insert-or-update of a key, modelling the object spread
`\x7b...m, [k]: v\x7d`: an existing key is overwritten in place, a new key is
appended. -/
def recordSet {α : Type} (m : List (Int × α)) (k : Int) (v : α) : List (Int × α) :=
  if m.any (fun p => p.1 == k) then
    m.map (fun p => if p.1 = k then (k, v) else p)
  else
    m ++ [(k, v)]

/-- Pending-edit state of the review page, from `ReviewState` in
`src/pages/reviewReducer.ts`. -/
structure ReviewState where
  items : List LineItem
  categoryCorrections : List (Int × String)
  priceCorrections : List (Int × ℚ)
  nameCorrections : List (Int × String)
  deletedItemIds : Finset Int
  manualTotal : Option ℚ
deriving DecidableEq

/-- Actions of the review reducer, from `ReviewAction` in
`src/pages/reviewReducer.ts`. The extra constructor `unknownAction`
represents any runtime action object whose `type` string is none of the
six recognized variants; the reducer's `default` branch handles it. -/
inductive ReviewAction where
  | setCategory (itemId : Int) (category : String)
  | setPrice (itemId : Int) (unitPrice : ℚ)
  | setName (itemId : Int) (name : String)
  | deleteItem (itemId : Int)
  | setManualTotal (total : Option ℚ)
  | reset (receipt : Receipt)
  | unknownAction (tag : String)

/-- Transition function of the CorrectionStore, from `reviewReducer` in
`src/pages/reviewReducer.ts`. -/
def reviewReducer (state : ReviewState) (action : ReviewAction) : ReviewState :=
  match action with
  | .setCategory itemId category =>
      { state with
        categoryCorrections := recordSet state.categoryCorrections itemId category
        items := state.items.map fun it =>
          if it.id = itemId then
            { it with category := category, category_source := .manual }
          else it }
  | .setPrice itemId unitPrice =>
      { state with
        priceCorrections := recordSet state.priceCorrections itemId unitPrice
        items := state.items.map fun it =>
          if it.id = itemId then { it with price := unitPrice } else it }
  | .setName itemId name =>
      { state with
        nameCorrections := recordSet state.nameCorrections itemId name
        items := state.items.map fun it =>
          if it.id = itemId then { it with clean_name := name } else it }
  | .deleteItem itemId =>
      { state with
        deletedItemIds := insert itemId state.deletedItemIds
        items := state.items.filter fun it => it.id != itemId }
  | .setManualTotal total => { state with manualTotal := total }
  | .reset receipt =>
      { items := receipt.items
        categoryCorrections := []
        priceCorrections := []
        nameCorrections := []
        deletedItemIds := ∅
        manualTotal := receipt.total }
  | .unknownAction _ => state

/-- Fresh state seeded from a baseline receipt, from `initialState` in
`src/pages/reviewReducer.ts`. -/
def initialState (receipt : Receipt) : ReviewState :=
  { items := receipt.items
    categoryCorrections := []
    priceCorrections := []
    nameCorrections := []
    deletedItemIds := ∅
    manualTotal := receipt.total }

/-- Dirtiness evaluator, from `isDirty` in `src/pages/reviewReducer.ts`
(lines 89-113). `Object.keys(m).length > 0` is the association list being
non-empty, and `x ?? ''` is `Option.getD x ""`. -/
def isDirty (state : ReviewState) (localItems : List LocalItem)
    (storeName : String) (receiptDate : String) (receipt : Receipt)
    (isVerified : Bool) : Bool :=
  if isVerified then
    decide (0 < state.categoryCorrections.length) ||
    decide (storeName ≠ receipt.store_name.getD "") ||
    decide (receiptDate ≠ receipt.receipt_date.getD "")
  else
    decide (0 < state.categoryCorrections.length) ||
    decide (0 < state.priceCorrections.length) ||
    decide (0 < state.nameCorrections.length) ||
    decide (0 < state.deletedItemIds.card) ||
    decide (0 < localItems.length) ||
    decide (storeName ≠ receipt.store_name.getD "") ||
    decide (receiptDate ≠ receipt.receipt_date.getD "")

/-- Initial value of the module-level counter in
`src/components/LineItemsTable.tsx`. -/
def initialTempId : Int := -1

/-- One call of the allocator: the TS body is a post-decrement of the
module-level counter, so the call returns the current counter value and
leaves the counter one lower. Modelled by explicit state passing. -/
def nextTempId (counter : Int) : Int × Int := (counter, counter - 1)

/-- Sequence of identifiers returned by n consecutive calls of
`nextTempId` starting from a given counter value. -/
def allocRun : Nat → Int → List Int
  | 0, _ => []
  | Nat.succ n, counter =>
      let r := nextTempId counter
      r.1 :: allocRun n r.2

/-- Sum of live items (price times quantity) plus local items' prices,
from the `subtotal` memo in `src/pages/ReviewReceipt.tsx` (lines
208-212). -/
def subtotal (items : List LineItem) (localItems : List LocalItem) : ℚ :=
  items.foldl (fun s i => s + i.price * i.quantity) 0 +
    localItems.foldl (fun s i => s + i.price) 0

/-- Tax with null defaulting to 0: `receipt.tax ?? 0`. -/
def taxOf (receipt : Receipt) : ℚ := receipt.tax.getD 0

/-- Effective total: `state.manualTotal ?? receipt.total`. -/
def totalOf (state : ReviewState) (receipt : Receipt) : Option ℚ :=
  match state.manualTotal with
  | some t => some t
  | none => receipt.total

/-- Condition of the fast path of the verification memo in
`src/pages/ReviewReceipt.tsx` (lines 218-219): baseline already verified
and nothing financial changed. -/
def fastPathB (receipt : Receipt) (state : ReviewState)
    (localItems : List LocalItem) : Bool :=
  receipt.total_verified &&
  decide (state.priceCorrections.length = 0) &&
  decide (state.deletedItemIds.card = 0) &&
  decide (localItems.length = 0)

/-- Three-state verification verdict (`balanced` / `warn` / `fail` in
`src/pages/ReviewReceipt.tsx`). -/
inductive VerifyStatusT where
  | balanced
  | warn
  | fail
deriving DecidableEq

/-- Result of the verification memo: status, title and detail string. -/
structure VerifyResult where
  verifyStatus : VerifyStatusT
  verifyTitle : String
  verifyDetail : String
deriving DecidableEq

/-- Modelled from the spec: the currency formatter `fmt` lives in
`src/lib/utils`, which is not among the provided source files. It renders
a number as a dollar amount rounded to two decimals. Its exact output
never decides any claim below; it only appears inside detail strings. -/
def fmt (q : ℚ) : String :=
  let cents : Int := round (q * 100)
  let a : Nat := cents.natAbs
  (if cents < 0 then "-" else "") ++ "$" ++ toString (a / 100) ++ "." ++
    (if a % 100 < 10 then "0" else "") ++ toString (a % 100)

/-- Verification memo from `src/pages/ReviewReceipt.tsx` (lines 217-245):
fast path when the baseline is verified and nothing financial changed,
else the two-cent tolerance comparison against the effective total, else
warning, else failure when no effective total exists. -/
def verify (receipt : Receipt) (state : ReviewState)
    (localItems : List LocalItem) : VerifyResult :=
  if fastPathB receipt state localItems then
    { verifyStatus := .balanced
      verifyTitle := "Total Balanced"
      verifyDetail :=
        receipt.verification_message.getD ("Total: " ++ fmt (receipt.total.getD 0)) }
  else
    match totalOf state receipt with
    | some t =>
        if |subtotal state.items localItems + taxOf receipt - t| < 0.02 then
          { verifyStatus := .balanced
            verifyTitle := "Total Balanced"
            verifyDetail :=
              "Items " ++ fmt (subtotal state.items localItems) ++ " + tax " ++
                fmt (taxOf receipt) ++ " = " ++ fmt t }
        else
          { verifyStatus := .warn
            verifyTitle := "Total Mismatch"
            verifyDetail :=
              "Items " ++ fmt (subtotal state.items localItems) ++ " + tax " ++
                fmt (taxOf receipt) ++ " = " ++
                fmt (subtotal state.items localItems + taxOf receipt) ++
                "  (receipt: " ++ fmt t ++ ")" }
    | none =>
        { verifyStatus := .fail
          verifyTitle := "Total Not Found"
          verifyDetail := receipt.verification_message.getD "Could not read receipt total." }

/-- Difference exposed to the VerifyBar,
`total != null ? total - subtotal - tax : undefined` in
`src/pages/ReviewReceipt.tsx` (line 351). -/
def difference (state : ReviewState) (receipt : Receipt)
    (localItems : List LocalItem) : Option ℚ :=
  match totalOf state receipt with
  | some t => some (t - subtotal state.items localItems - taxOf receipt)
  | none => none

/-- Shape of a new-item entry in the save payload, from `NewLineItemBody`
in `src/types.ts`. -/
structure NewLineItemBody where
  name : String
  price : ℚ
  category : String
deriving DecidableEq

/-- Save payload shape, from `SaveReceiptBody` in `src/types.ts`. The
`deleted_item_ids` array is modelled by the underlying finite set. -/
structure SaveReceiptBody where
  corrections : List (Int × String)
  price_corrections : List (Int × ℚ)
  name_corrections : List (Int × String)
  manual_total : Option ℚ
  receipt_date : Option String
  store_name : Option String
  new_items : List NewLineItemBody
  deleted_item_ids : Finset Int
  approve : Bool
deriving DecidableEq

/-- Payload construction from `handleSave` in `src/pages/ReviewReceipt.tsx`
(lines 287-303). The `Object.fromEntries(Object.entries(m).map ...)`
round-trips are identity copies of the correction maps; `x || null` on a
string is `none` exactly when the string is empty. -/
def buildSaveBody (state : ReviewState) (isVerified : Bool)
    (receiptDate : String) (storeName : String)
    (localItems : List LocalItem) (approve : Bool) : SaveReceiptBody :=
  { corrections := state.categoryCorrections
    price_corrections := state.priceCorrections
    name_corrections := state.nameCorrections
    manual_total := if isVerified then none else state.manualTotal
    receipt_date := if receiptDate = "" then none else some receiptDate
    store_name := if storeName = "" then none else some storeName
    new_items := localItems.map fun i =>
      { name := i.name, price := i.price, category := i.category }
    deleted_item_ids := state.deletedItemIds
    approve := approve }

/-- Observable outcome of one `handleSave` invocation: whether the
field-level date error signal was set, and the payload handed to the
external save collaborator, if any. -/
structure SaveAttempt where
  dateError : Bool
  sent : Option SaveReceiptBody
deriving DecidableEq

/-- Control flow of `handleSave` in `src/pages/ReviewReceipt.tsx` (lines
277-307): no handler means nothing happens; an empty date sets the date
error and returns before any payload is built; otherwise the payload is
built and handed to the collaborator. The function is total: no exception
escapes. -/
def handleSave (hasOnSave : Bool) (receiptDate : String)
    (state : ReviewState) (isVerified : Bool) (storeName : String)
    (localItems : List LocalItem) (approve : Bool) : SaveAttempt :=
  if !hasOnSave then { dateError := false, sent := none }
  else if receiptDate = "" then { dateError := true, sent := none }
  else
    { dateError := false
      sent := some (buildSaveBody state isVerified receiptDate storeName localItems approve) }

/-- Concrete line item mirroring the helper of
`src/pages/reviewReducer.test.ts`. -/
def sampleItem : LineItem :=
  { id := 1, raw_name := "Milk", clean_name := "Milk",
    category := "Dairy & Eggs", category_source := .ai,
    price := 399/100, quantity := 1, receipt_id := 100 }

/-- Concrete baseline receipt mirroring the helper of
`src/pages/reviewReducer.test.ts`. -/
def sampleReceipt : Receipt :=
  { id := 100, store_name := some "Costco",
    receipt_date := some "2026-02-20",
    scanned_at := "2026-02-20T12:00:00Z", status := .pending,
    total := some 50, tax := some (7/2), total_verified := true,
    verification_message := none, ocr_raw := none, image_path := none,
    thumbnail_path := none, items := [sampleItem] }

/-- Verified receipt carrying a verification message, whose item
arithmetic does not balance against its stated total. -/
def verifiedReceipt : Receipt :=
  { sampleReceipt with
    status := .verified
    verification_message := some "Total verified at scan time" }

/-- Single line item priced at exactly 100.00 with quantity 1. -/
def itemHundred : LineItem :=
  { id := 1, raw_name := "Stuff", clean_name := "Stuff",
    category := "Other", category_source := .ai,
    price := 100, quantity := 1, receipt_id := 200 }

/-- Unverified receipt with subtotal 100.00, tax 0.00, total 100.01. -/
def receiptBalC3 : Receipt :=
  { id := 200, store_name := some "Costco",
    receipt_date := some "2026-02-20",
    scanned_at := "2026-02-20T12:00:00Z", status := .pending,
    total := some (10001/100), tax := some 0, total_verified := false,
    verification_message := none, ocr_raw := none, image_path := none,
    thumbnail_path := none, items := [itemHundred] }

/-- Unverified receipt with subtotal 100.00, tax 0.00, total 100.03. -/
def receiptWarnC3 : Receipt :=
  { receiptBalC3 with total := some (10003/100) }

/-- Unverified receipt with subtotal 100.00, tax 0.00 and no stated
total. -/
def receiptNoTotalC3 : Receipt :=
  { receiptBalC3 with total := none }

/-- Mapping a function that fixes every element of a list is the
identity. -/
theorem mapCongrId {α : Type} (l : List α) (f : α → α)
    (h : ∀ x ∈ l, f x = x) : l.map f = l := by
  induction l with
  | nil => rfl
  | cons a t ih =>
      simp only [List.map_cons]
      rw [h a (List.mem_cons_self a t),
        ih fun x hx => h x (List.mem_cons_of_mem a hx)]

/-- C2. Approved-receipt dirtiness policy: with the verified flag set,
isDirty is true exactly when the category-correction map is non-empty or
the store-name header differs from the baseline store name or the date
header differs from the baseline date, a null baseline header comparing
equal to an empty-string header; price corrections, name corrections,
deletions, local items and the manual total never affect the result in
this mode. -/
theorem isDirty_verified_policy (s : ReviewState) (li : List LocalItem)
    (storeName receiptDate : String) (r : Receipt) :
    (isDirty s li storeName receiptDate r true = true ↔
      (s.categoryCorrections ≠ [] ∨ storeName ≠ r.store_name.getD "" ∨
        receiptDate ≠ r.receipt_date.getD "")) ∧
    (∀ pc nc del mt li2,
      isDirty
        { s with priceCorrections := pc, nameCorrections := nc,
                 deletedItemIds := del, manualTotal := mt }
        li2 storeName receiptDate r true =
        isDirty s li storeName receiptDate r true) := by
  constructor
  · simp [isDirty, List.length_pos]
    tauto
  · intro pc nc del mt li2
    simp [isDirty]

/-- C5. The save payload carries a manual total only when the receipt is
not in approved (verified) mode; in approved mode it is always null. -/
theorem manual_total_policy (s : ReviewState) (isVerified : Bool)
    (receiptDate storeName : String) (li : List LocalItem) (approve : Bool) :
    (buildSaveBody s isVerified receiptDate storeName li approve).manual_total =
      (if isVerified then none else s.manualTotal) := rfl

/-- C6. DELETE_ITEM is idempotent: applying it twice yields the same
deleted-set size and the same live item list as applying it once. -/
theorem deleteItem_idempotent (s : ReviewState) (i : Int) :
    (reviewReducer (reviewReducer s (ReviewAction.deleteItem i))
        (ReviewAction.deleteItem i)).deletedItemIds.card =
      (reviewReducer s (ReviewAction.deleteItem i)).deletedItemIds.card ∧
    (reviewReducer (reviewReducer s (ReviewAction.deleteItem i))
        (ReviewAction.deleteItem i)).items =
      (reviewReducer s (ReviewAction.deleteItem i)).items := by
  constructor
  · simp [reviewReducer, Finset.insert_idem]
  · simp [reviewReducer, List.filter_filter]

/-- C7. Any action whose type is none of the six recognized variants is
handled by the default branch, which returns the input state itself: the
transition is the identity on the state, so the same reference is
returned unchanged. -/
theorem unknown_action_identity (s : ReviewState) (tag : String) :
    reviewReducer s (ReviewAction.unknownAction tag) = s := rfl

/-- C9. For an unapproved receipt, requesting a save with an empty date
header fails locally: the date error signal is set and no payload is
handed to the save collaborator, whatever the rest of the state; the
function returns normally. -/
theorem handleSave_missing_date_blocks (s : ReviewState)
    (storeName : String) (li : List LocalItem) (approve : Bool) :
    handleSave true "" s false storeName li approve =
      { dateError := true, sent := none } := rfl

/-- C10. DELETE_ITEM leaves the three correction maps and the manual
total unchanged, and a payload built from the post-delete state still
emits exactly the prior correction maps (so any entries recorded for the
deleted item id are still emitted) while listing the deleted id in
deleted_item_ids. -/
theorem deleteItem_preserves_corrections (s : ReviewState) (i : Int)
    (isVerified : Bool) (receiptDate storeName : String)
    (li : List LocalItem) (approve : Bool) :
    (reviewReducer s (ReviewAction.deleteItem i)).categoryCorrections =
        s.categoryCorrections ∧
    (reviewReducer s (ReviewAction.deleteItem i)).priceCorrections =
        s.priceCorrections ∧
    (reviewReducer s (ReviewAction.deleteItem i)).nameCorrections =
        s.nameCorrections ∧
    (reviewReducer s (ReviewAction.deleteItem i)).manualTotal =
        s.manualTotal ∧
    (buildSaveBody (reviewReducer s (ReviewAction.deleteItem i)) isVerified
        receiptDate storeName li approve).corrections =
        s.categoryCorrections ∧
    (buildSaveBody (reviewReducer s (ReviewAction.deleteItem i)) isVerified
        receiptDate storeName li approve).price_corrections =
        s.priceCorrections ∧
    (buildSaveBody (reviewReducer s (ReviewAction.deleteItem i)) isVerified
        receiptDate storeName li approve).name_corrections =
        s.nameCorrections ∧
    i ∈ (buildSaveBody (reviewReducer s (ReviewAction.deleteItem i)) isVerified
        receiptDate storeName li approve).deleted_item_ids := by
  refine ⟨rfl, rfl, rfl, rfl, rfl, rfl, rfl, ?_⟩
  simp [buildSaveBody, reviewReducer]

/-- C1 counterexample. The claim that SET_CATEGORY with an absent itemId
is a no-op returning the same state is false: on a state whose only live
item has id 1, SET_CATEGORY for id 2 yields a different state whose
category-correction map has gained the entry for id 2. -/
theorem setCategory_absent_claim_counterexample :
    reviewReducer (initialState sampleReceipt)
        (ReviewAction.setCategory 2 "Snacks") ≠ initialState sampleReceipt ∧
    (reviewReducer (initialState sampleReceipt)
        (ReviewAction.setCategory 2 "Snacks")).categoryCorrections =
      [(2, "Snacks")] ∧
    (initialState sampleReceipt).categoryCorrections = [] := by
  refine ⟨?_, ?_, rfl⟩
  · intro h
    have h2 := congrArg ReviewState.categoryCorrections h
    simp [reviewReducer, initialState, sampleReceipt, recordSet] at h2
  · simp [reviewReducer, initialState, sampleReceipt, recordSet]

/-- C1 amended. SET_CATEGORY with an itemId absent from the live item
list still records the category under the category-correction map (the
reducer has no membership guard); every other component of the state,
including the live item list, is unchanged. -/
theorem setCategory_absent_records_correction (s : ReviewState) (i : Int)
    (c : String) (h : ∀ it ∈ s.items, it.id ≠ i) :
    reviewReducer s (ReviewAction.setCategory i c) =
      { s with categoryCorrections := recordSet s.categoryCorrections i c } := by
  simp only [reviewReducer]
  rw [mapCongrId s.items _ fun it hit => if_neg (h it hit)]

/-- C1 amended, witness at a concrete input: the single live item has
id 1 and the action targets id 2. -/
theorem setCategory_absent_records_correction_witness :
    reviewReducer (initialState sampleReceipt)
        (ReviewAction.setCategory 2 "Snacks") =
      { initialState sampleReceipt with
        categoryCorrections :=
          recordSet (initialState sampleReceipt).categoryCorrections 2 "Snacks" } :=
  setCategory_absent_records_correction (initialState sampleReceipt) 2 "Snacks"
    (by
      intro it hit
      simp [initialState, sampleReceipt] at hit
      rw [hit]
      decide)

/-- C4. When the baseline total_verified flag is set and there are no
price corrections, no deletions and no local items, the verifier takes
the fast path: the verdict is Balanced and the detail string is the
baseline receipt's verification message verbatim, independent of the
item arithmetic. -/
theorem fastPath_verbatim_message (r : Receipt) (s : ReviewState)
    (li : List LocalItem) (msg : String) (hv : r.total_verified = true)
    (hp : s.priceCorrections = []) (hd : s.deletedItemIds = ∅)
    (hl : li = []) (hm : r.verification_message = some msg) :
    (verify r s li).verifyStatus = VerifyStatusT.balanced ∧
    (verify r s li).verifyDetail = msg := by
  have hfast : fastPathB r s li = true := by
    simp [fastPathB, hv, hp, hd, hl]
  constructor <;> simp [verify, hfast, hm]

/-- C4 witness: a verified receipt whose items (3.99) plus tax (3.50)
are nowhere near its stated total (50.00) still reports Balanced with
the stored verification message verbatim. -/
theorem fastPath_verbatim_message_witness :
    ((verify verifiedReceipt (initialState verifiedReceipt) []).verifyStatus =
        VerifyStatusT.balanced ∧
      (verify verifiedReceipt (initialState verifiedReceipt) []).verifyDetail =
        "Total verified at scan time") ∧
    ¬ |subtotal (initialState verifiedReceipt).items [] +
        taxOf verifiedReceipt - 50| < 0.02 := by
  constructor
  · exact fastPath_verbatim_message verifiedReceipt
      (initialState verifiedReceipt) [] "Total verified at scan time"
      rfl rfl rfl rfl rfl
  · have hs : subtotal (initialState verifiedReceipt).items [] = 399/100 := by
      norm_num [subtotal, initialState, verifiedReceipt, sampleReceipt, sampleItem]
    have ht : taxOf verifiedReceipt = 7/2 := by
      norm_num [taxOf, verifiedReceipt, sampleReceipt]
    rw [hs, ht, not_lt, le_abs]
    right
    norm_num

/-- C3 counterexample. On the receipt with subtotal 100.00, tax 0.00,
total 100.03 the verdict is Warning, but the exposed difference is
total − subtotal − tax = +0.03, not −0.03 as the claim's example
states. -/
theorem verify_difference_sign_counterexample :
    (verify receiptWarnC3 (initialState receiptWarnC3) []).verifyStatus =
        VerifyStatusT.warn ∧
    difference (initialState receiptWarnC3) receiptWarnC3 [] =
        some (3/100) ∧
    ¬ difference (initialState receiptWarnC3) receiptWarnC3 [] =
        some (-(3/100)) := by
  have hfast : fastPathB receiptWarnC3 (initialState receiptWarnC3) [] = false := by
    simp [fastPathB, receiptWarnC3, receiptBalC3, initialState]
  have htot : totalOf (initialState receiptWarnC3) receiptWarnC3 =
      some (10003/100) := rfl
  have hsub : subtotal (initialState receiptWarnC3).items [] = 100 := by
    norm_num [subtotal, initialState, receiptWarnC3, receiptBalC3, itemHundred]
  have htax : taxOf receiptWarnC3 = 0 := by
    norm_num [taxOf, receiptWarnC3, receiptBalC3]
  have hnot : ¬ |subtotal (initialState receiptWarnC3).items [] +
      taxOf receiptWarnC3 - 10003/100| < 0.02 := by
    rw [hsub, htax, not_lt, le_abs]
    right
    norm_num
  refine ⟨?_, ?_, ?_⟩
  · simp [verify, hfast, htot, hnot]
  · rw [difference, htot, hsub, htax]
    norm_num
  · rw [difference, htot, hsub, htax]
    norm_num

/-- C3 amended. When the fast path does not apply: if an effective total
exists and |subtotal + tax − total| < 0.02 the verdict is Balanced; else
if an effective total exists the verdict is Warning and the exposed
difference equals total − subtotal − tax; else the verdict is Failed.
(The claim's concrete example for total 100.03 is amended to difference
+0.03 = 100.03 − 100.00 − 0.00.) -/
theorem verify_slow_path_characterization (r : Receipt) (s : ReviewState)
    (li : List LocalItem) (hfast : fastPathB r s li = false) :
    (∀ t, totalOf s r = some t →
      |subtotal s.items li + taxOf r - t| < 0.02 →
      (verify r s li).verifyStatus = VerifyStatusT.balanced) ∧
    (∀ t, totalOf s r = some t →
      ¬ |subtotal s.items li + taxOf r - t| < 0.02 →
      (verify r s li).verifyStatus = VerifyStatusT.warn ∧
        difference s r li = some (t - subtotal s.items li - taxOf r)) ∧
    (totalOf s r = none → (verify r s li).verifyStatus = VerifyStatusT.fail) := by
  refine ⟨?_, ?_, ?_⟩
  · intro t ht hlt
    simp [verify, hfast, ht, hlt]
  · intro t ht hge
    constructor
    · simp [verify, hfast, ht, hge]
    · rw [difference, ht]
  · intro ht
    simp [verify, hfast, ht]

/-- C3 witness, covering the three concrete scenarios of the amended
claim: subtotal 100.00 and tax 0.00 against total 100.01 (Balanced),
total 100.03 (Warning with difference total − subtotal − tax) and no
total (Failed). -/
theorem verify_slow_path_characterization_witness :
    (verify receiptBalC3 (initialState receiptBalC3) []).verifyStatus =
        VerifyStatusT.balanced ∧
    ((verify receiptWarnC3 (initialState receiptWarnC3) []).verifyStatus =
        VerifyStatusT.warn ∧
      difference (initialState receiptWarnC3) receiptWarnC3 [] =
        some (10003/100 - subtotal (initialState receiptWarnC3).items [] -
          taxOf receiptWarnC3)) ∧
    (verify receiptNoTotalC3 (initialState receiptNoTotalC3) []).verifyStatus =
        VerifyStatusT.fail := by
  refine ⟨?_, ?_, ?_⟩
  · refine (verify_slow_path_characterization receiptBalC3
      (initialState receiptBalC3) []
      (by simp [fastPathB, receiptBalC3, initialState])).1 (10001/100) rfl ?_
    have hsub : subtotal (initialState receiptBalC3).items [] = 100 := by
      norm_num [subtotal, initialState, receiptBalC3, itemHundred]
    have htax : taxOf receiptBalC3 = 0 := by
      norm_num [taxOf, receiptBalC3]
    rw [hsub, htax, abs_lt]
    constructor <;> norm_num
  · refine (verify_slow_path_characterization receiptWarnC3
      (initialState receiptWarnC3) []
      (by simp [fastPathB, receiptWarnC3, receiptBalC3, initialState])).2.1
      (10003/100) rfl ?_
    have hsub : subtotal (initialState receiptWarnC3).items [] = 100 := by
      norm_num [subtotal, initialState, receiptWarnC3, receiptBalC3, itemHundred]
    have htax : taxOf receiptWarnC3 = 0 := by
      norm_num [taxOf, receiptWarnC3, receiptBalC3]
    rw [hsub, htax, not_lt, le_abs]
    right
    norm_num
  · exact (verify_slow_path_characterization receiptNoTotalC3
      (initialState receiptNoTotalC3) []
      (by simp [fastPathB, receiptNoTotalC3, receiptBalC3, initialState])).2.2 rfl

/-- Unfolding one call of the allocator run. -/
theorem allocRun_succ (n : Nat) (c : Int) :
    allocRun (n + 1) c = c :: allocRun n (c - 1) := rfl

/-- Closed form of the allocator run: starting from counter c, the k-th
identifier returned is c − k. -/
theorem allocRun_eq (n : Nat) :
    ∀ c : Int, allocRun n c = (List.range n).map fun k : Nat => c - (k : Int) := by
  induction n with
  | zero => intro c; rfl
  | succ m ih =>
      intro c
      rw [allocRun_succ, ih (c - 1), List.range_succ_eq_map,
        List.map_cons, List.map_map]
      have hfun : (fun k : Nat => c - 1 - (k : Int)) =
          ((fun k : Nat => c - (k : Int)) ∘ Nat.succ) := by
        funext k
        simp [Function.comp]
        ring
      rw [hfun]
      simp

/-- The allocator run is a chain in which each identifier is exactly one
less than the previous one. -/
theorem allocRun_chain (n : Nat) :
    ∀ c : Int, List.Chain' (fun a b => b = a - 1) (allocRun n c) := by
  induction n with
  | zero => intro c; exact List.chain'_nil
  | succ m ih =>
      intro c
      rw [allocRun_succ, List.chain'_cons']
      refine ⟨?_, ih (c - 1)⟩
      intro b hb
      cases m with
      | zero => simp [allocRun] at hb
      | succ k =>
          rw [allocRun_succ] at hb
          simp at hb
          omega

/-- C8. N consecutive calls of the local-item identifier allocator,
starting from the process-initial counter, return N distinct, strictly
negative identifiers, the first being −1 and each subsequent one exactly
one less than the previous (hence strictly decreasing, and none is ever
reused within the run). -/
theorem nextTempId_alloc_spec (n : Nat) :
    (allocRun n initialTempId).length = n ∧
    (allocRun n initialTempId).Nodup ∧
    (∀ x ∈ allocRun n initialTempId, x < 0) ∧
    List.Chain' (fun a b => b = a - 1) (allocRun n initialTempId) ∧
    (0 < n → (allocRun n initialTempId).head? = some (-1)) := by
  refine ⟨?_, ?_, ?_, allocRun_chain n initialTempId, ?_⟩
  · rw [allocRun_eq]
    simp
  · rw [allocRun_eq]
    refine List.Nodup.map ?_ (List.nodup_range n)
    intro a b hab
    simp only at hab
    omega
  · intro x hx
    rw [allocRun_eq] at hx
    simp at hx
    obtain ⟨k, _, rfl⟩ := hx
    simp [initialTempId]
    omega
  · intro hn
    cases n with
    | zero => omega
    | succ m => rfl

/-- C8 witness: three consecutive calls from the initial counter return
−1, −2, −3. -/
theorem nextTempId_alloc_spec_witness :
    allocRun 3 initialTempId = [-1, -2, -3] ∧
    (allocRun 3 initialTempId).head? = some (-1) := by
  refine ⟨by decide, (nextTempId_alloc_spec 3).2.2.2.2 (by decide)⟩

end Tabulate
